import Mathlib

/-!
Verification of the HSV Range Finder application (src/main.py).

The development shallowly embeds the core of the program:
the Threshold Engine (lines 515-546), the Processing Cache
(lines 548-571), the Bounded Parameter entry validation (lines 663-674),
the clipboard export (lines 326-333, 723-739), the load path
(lines 336-454) and the tick/debounce Change Coalescer
(lines 637-654).  Machine pixels are Nat triples, HSV bounds are Int
triples (slider variables can in principle carry negative values, which
the code guards against), and the event loop of the coalescer is an
explicit discrete-time step function.
-/

set_option synthInstance.maxSize 1024

namespace HSVFinder

/-- One pixel in channel order (b, g, r) for source images, or (h, s, v)
after color conversion; each channel is a byte-valued Nat. -/
abbrev Pixel := Nat × Nat × Nat

/-- An image is a flat list of pixels (shape is irrelevant to the
point-wise operations the program performs). -/
abbrev Img := List Pixel

/-- An HSV bound triple as read from the three slider variables.
Components are integers: the validation code at lines 501-502 explicitly
guards against negative components, so the type must allow them. -/
abbrev Bound := Int × Int × Int

/-- Conversion of one BGR pixel to HSV, the embedding of the
cv2.cvtColor(image, cv2.COLOR_BGR2HSV) call at line 524, following the
documented OpenCV 8-bit formula: V = max(R,G,B); S = 255 (V - min)/V
rounded (0 when V = 0); H = half the hue angle in degrees, computed per
dominant channel, normalized into 0..179.  Division is truncating; the
exact rounding mode is immaterial to every property proved below. -/
def bgr2hsvPixel (p : Pixel) : Pixel :=
  let b := p.1
  let g := p.2.1
  let r := p.2.2
  let v := max r (max g b)
  let mn := min r (min g b)
  let d := v - mn
  let s := if v = 0 then 0 else (2 * 255 * d + v) / (2 * v)
  let h :=
    if d = 0 then 0
    else if v = r then
      if b ≤ g then 30 * (g - b) / d
      else (180 - 30 * (b - g) / d) % 180
    else if v = g then
      if r ≤ b then 60 + 30 * (b - r) / d
      else 60 - 30 * (r - b) / d
    else
      if g ≤ r then 120 + 30 * (r - g) / d
      else 120 - 30 * (g - r) / d
  (h, s, v)

/-- The whole-image BGR-to-HSV conversion (line 524). -/
def cvtBGR2HSV (image : Img) : Img := image.map bgr2hsvPixel

/-- Conversion of one BGR pixel to gray, the embedding of the
cv2.cvtColor(filtered_frame, cv2.COLOR_BGR2GRAY) call at line 534,
using the OpenCV fixed-point coefficients
(9798 R + 19235 G + 3735 B + 16384) with a 15-bit shift. -/
def bgr2grayPixel (p : Pixel) : Nat :=
  (9798 * p.2.2 + 19235 * p.2.1 + 3735 * p.1 + 16384) / 32768

/-- The whole-image gray conversion (line 534). -/
def grayOf (image : Img) : List Nat := image.map bgr2grayPixel

/-- Membership test of one HSV pixel in the inclusive box given by the
lower and upper bound: the per-pixel semantics of
cv2.inRange(hsv, lower_bound, upper_bound) at line 530.  A pixel in the
box yields 255, otherwise 0. -/
def inRangePixel (lo hi : Bound) (q : Pixel) : Nat :=
  if lo.1 ≤ (q.1 : Int) ∧ (q.1 : Int) ≤ hi.1 ∧
     lo.2.1 ≤ (q.2.1 : Int) ∧ (q.2.1 : Int) ≤ hi.2.1 ∧
     lo.2.2 ≤ (q.2.2 : Int) ∧ (q.2.2 : Int) ≤ hi.2.2
  then 255 else 0

/-- The mask produced by cv2.inRange at line 530, computed from the HSV
image. -/
def inRangeImg (hsv : Img) (lo hi : Bound) : List Nat :=
  hsv.map (inRangePixel lo hi)

/-- The embedding of cv2.bitwise_and(image, image, mask=mask) at
line 531: a pixel is kept where the mask is non-zero and zeroed where
the mask is zero. -/
def bitwiseAndMask (image : Img) (mask : List Nat) : Img :=
  List.zipWith (fun p m => if m = 0 then ((0, 0, 0) : Pixel) else p) image mask

/-- The embedding of cv2.threshold(gray, 0, 255, cv2.THRESH_BINARY) at
line 535: destination value 255 where the source value exceeds the
threshold 0, and 0 otherwise. -/
def threshBinary (gray : List Nat) : List Nat :=
  gray.map (fun c => if 0 < c then 255 else 0)

/-- The full Threshold Engine pipeline of lines 524-538 run with no
cache: HSV conversion, in-range mask, masked filter, gray conversion,
binarization.  Returns the (image, filtered, binary) triple the code
builds at line 538. -/
def thresholdEngine (image : Img) (lo hi : Bound) : Img × Img × List Nat :=
  let hsv := cvtBGR2HSV image
  let mask := inRangeImg hsv lo hi
  let filtered := bitwiseAndMask image mask
  let gray := grayOf filtered
  let binary := threshBinary gray
  (image, filtered, binary)

/-! ## Bounded Parameter: entry validation (lines 663-674) -/

/-- Fold a list of decimal digit characters into a Nat. -/
def digitsToNat (l : List Char) : Nat :=
  l.foldl (fun a c => a * 10 + (c.toNat - 48)) 0

/-- A model of the Python int(...) conversion applied to the entry text
at line 666: surrounding whitespace is ignored, an optional single sign
is followed by at least one decimal digit; anything else raises
ValueError, modelled as none.  (Underscore digit separators and
non-ASCII digits, which Python also accepts, are outside the model.) -/
def pythonInt (s : String) : Option Int :=
  let l := (((s.toList.dropWhile Char.isWhitespace).reverse.dropWhile
      Char.isWhitespace).reverse)
  match l with
  | [] => none
  | c :: rest =>
    if c = '-' then
      if rest ≠ [] ∧ rest.all Char.isDigit then some (-(digitsToNat rest : Int))
      else none
    else if c = '+' then
      if rest ≠ [] ∧ rest.all Char.isDigit then some (digitsToNat rest : Int)
      else none
    else if (c :: rest).all Char.isDigit then some (digitsToNat (c :: rest) : Int)
    else none

/-- The state one Bounded Parameter touches: the slider variable value,
the display label text, and the shared dirty flag set by
mark_hsv_changed (the method name has an underscore prefix in the
source). -/
structure ParamState where
  value : Int
  label : String
  hsvChanged : Bool
deriving Repr, DecidableEq

/-- The embedding of validate_and_update at lines 663-674 (underscore
prefix in the source): parse the entry text as an integer; if it parses
and lies inside the inclusive domain, store it, update the label, mark
the dirty flag and return true; otherwise change nothing and return
false. -/
def validateAndUpdate (minVal maxVal : Int) (entryText : String)
    (st : ParamState) : ParamState × Bool :=
  match pythonInt entryText with
  | some v =>
    if minVal ≤ v ∧ v ≤ maxVal then
      ({ value := v, label := toString v, hsvChanged := true }, true)
    else (st, false)
  | none => (st, false)

/-! ## Clipboard export (lines 326-333 and 723-739) -/

/-- A slider getter such as get_uh at line 732 formats the variable with
the Python format spec .0f; on the whole numbers the sliders and entries
store (domain 0..255) this is exactly the plain decimal rendering. -/
def formatHsvComponent (v : Nat) : String := toString v

/-- The string built by get_upperRange at line 332 and handed to the
clipboard: the three formatted components joined by commas. -/
def getUpperRange (h s v : Nat) : String :=
  formatHsvComponent h ++ "," ++ formatHsvComponent s ++ "," ++ formatHsvComponent v

/-- The string built by get_lowerRange at line 327. -/
def getLowerRange (h s v : Nat) : String :=
  formatHsvComponent h ++ "," ++ formatHsvComponent s ++ "," ++ formatHsvComponent v

/-! ## Application Controller state (fields set in init, lines 80-89) -/

/-- What the secondary preview pane shows: a color (filtered) buffer or
a single-channel (binary) buffer; see display_images_safely at
lines 583-587. -/
abbrev Preview := Img ⊕ List Nat

/-- The mutable state of the HSVRangeFinder instance relevant to the
processing pipeline: the loaded image, the dirty flag, the view toggle,
the three cache fields, the six slider variables grouped as two bound
triples, and the two display surfaces.  The engineCalls field is
instrumentation only: it counts executions of the Threshold Engine
body, the call counter the testable-properties section of the design
uses to observe recomputation. -/
structure AppState where
  loadedImage : Option Img
  hsvChanged : Bool
  showBinary : Bool
  cachedHsvImage : Option Img
  cachedProcessedImages : Option (Img × Img × List Nat)
  lastProcessedBounds : Option (Bound × Bound)
  lowerBound : Bound
  upperBound : Bound
  displayed : Option Img × Option Preview
  engineCalls : Nat
deriving Repr, DecidableEq

/-- The state after init: no image, clean flags, empty caches, default
bounds (0,0,0) and (179,255,255), empty displays (lines 80-89 and
196-202). -/
def initialState : AppState :=
  { loadedImage := none
    hsvChanged := false
    showBinary := false
    cachedHsvImage := none
    cachedProcessedImages := none
    lastProcessedBounds := none
    lowerBound := (0, 0, 0)
    upperBound := (179, 255, 255)
    displayed := (none, none)
    engineCalls := 0 }

/-- The embedding of can_use_cached_results at lines 548-556 (underscore
prefix in the source): true exactly when a processed-images tuple and a
last-bounds pair are stored and np.array_equal holds between each stored
bound and the corresponding requested bound.  Nothing else — in
particular no image — is inspected. -/
def canUseCachedResults (st : AppState) (lo hi : Bound) : Bool :=
  match st.cachedProcessedImages, st.lastProcessedBounds with
  | some _, some (cl, cu) => decide (cl = lo ∧ cu = hi)
  | _, _ => false

/-- The embedding of is_same_image at lines 558-565 (underscore prefix
in the source): false when no image is loaded or no HSV image is
cached; otherwise shape plus element-wise comparison of the argument
against the loaded image, which on the list model is equality. -/
def isSameImage (st : AppState) (image : Img) : Bool :=
  match st.loadedImage, st.cachedHsvImage with
  | some li, some _ => decide (image = li)
  | _, _ => false

/-- The embedding of process_image_safely at lines 515-546 (underscore
prefix in the source).  On a cache hit the stored tuple is returned and
the state is untouched; on a miss the HSV image is taken from the HSV
cache when valid and recomputed otherwise, the mask, filtered and
binary buffers are computed, and the result replaces the cache entry.
The exception path of the source cannot arise in the total model. -/
def processImageSafely (st : AppState) (image : Img) (lo hi : Bound) :
    Option (Img × Img × List Nat) × AppState :=
  if canUseCachedResults st lo hi then
    (st.cachedProcessedImages, st)
  else
    let recompute := st.cachedHsvImage.isNone || !(isSameImage st image)
    let hsv := if recompute then cvtBGR2HSV image else st.cachedHsvImage.getD []
    let st1 := if recompute then { st with cachedHsvImage := some (cvtBGR2HSV image) } else st
    let mask := inRangeImg hsv lo hi
    let filtered := bitwiseAndMask image mask
    let gray := grayOf filtered
    let binary := threshBinary gray
    let res := (image, filtered, binary)
    (some res,
      { st1 with
          cachedProcessedImages := some res
          lastProcessedBounds := some (lo, hi)
          engineCalls := st1.engineCalls + 1 })

/-- Per-component negativity test, the np.any(bound < 0) checks at
line 501. -/
def hasNeg (b : Bound) : Bool :=
  decide (b.1 < 0 ∨ b.2.1 < 0 ∨ b.2.2 < 0)

/-- The embedding of get_validated_hsv_bounds at lines 494-513
(underscore prefix in the source): none when either triple has a
negative component; the lower-greater-than-upper case only prints a
warning and proceeds, so it is not a rejection. -/
def getValidatedHsvBounds (st : AppState) : Option (Bound × Bound) :=
  if hasNeg st.lowerBound || hasNeg st.upperBound then none
  else some (st.lowerBound, st.upperBound)

/-- The embedding of display_images_safely at lines 573-590 (underscore
prefix in the source), with resizing — an external concern — elided:
the first pane shows the original and the second the filtered or the
binary buffer per the toggle. -/
def displayImagesSafely (st : AppState) (original filtered : Img)
    (binary : List Nat) : AppState :=
  { st with
      displayed :=
        (some original,
         some (if st.showBinary then Sum.inr binary else Sum.inl filtered)) }

/-- The embedding of process_and_display_image at lines 461-487: with no
image the displays are cleared; with invalid bounds the method returns
with nothing changed; otherwise the safe processing step runs and its
result is displayed. -/
def processAndDisplayImage (st : AppState) : AppState :=
  match st.loadedImage with
  | none => { st with displayed := (none, none) }
  | some img =>
    match getValidatedHsvBounds st with
    | none => st
    | some (lo, hi) =>
      match processImageSafely st img lo hi with
      | (none, st1) => st1
      | (some (o, f, b), st1) => displayImagesSafely st1 o f b

/-- The embedding of invalidate_cache at lines 567-571 (underscore
prefix in the source): all three cache fields are cleared. -/
def invalidateCache (st : AppState) : AppState :=
  { st with
      cachedHsvImage := none
      cachedProcessedImages := none
      lastProcessedBounds := none }

/-- The possible outcomes of the dialog/validation/decode sequence in
load_image (lines 356-366), validate_file_path (lines 403-431) and
load_image_file (lines 433-454): the user cancels the dialog, the path
does not exist, the path is not a regular file, the user declines the
oversize-file warning, cv2.imread fails to decode, the user declines
the oversize-dimensions warning, or an image is produced. -/
inductive LoadOutcome where
  | cancelled
  | fileMissing
  | notAFile
  | oversizeDeclined
  | decodeFailed
  | dimensionsDeclined
  | success (image : Img)
deriving Repr, DecidableEq

/-- The embedding of load_image at lines 336-374: every outcome but a
successful decode returns with the state untouched (the source shows an
error box or simply returns); on success the image is stored, the cache
is invalidated, the dirty flag is set, and an immediate
process-and-display pass runs. -/
def loadImage (st : AppState) (o : LoadOutcome) : AppState :=
  match o with
  | .success image =>
    processAndDisplayImage
      { invalidateCache { st with loadedImage := some image } with hsvChanged := true }
  | _ => st

/-! ## Change Coalescer (lines 637-660)

The tick update_frame reschedules itself every UPDATE_INTERVAL = 50
time units; while the dirty flag is set it cancels any pending
debounced action and schedules a fresh one DEBOUNCE_DELAY = 150 units
ahead.  The debounced action processes and clears the flag.  Everything
runs on one cooperative event loop, modelled as one step per discrete
time unit.
-/

/-- The coalescer-relevant state: the dirty flag hsv_changed, the
pending debounced action as its absolute fire time (none when no timer
is pending, mirroring the debounce_timer handle), and a count of
completed processing passes. -/
structure CoState where
  dirty : Bool
  pending : Option Nat
  passes : Nat
deriving Repr, DecidableEq

/-- The embedding of debounced_update at lines 649-654 (underscore
prefix in the source): process and clear the flag when dirty, then drop
the timer handle. -/
def debouncedUpdate (s : CoState) : CoState :=
  let s1 := if s.dirty then { s with passes := s.passes + 1, dirty := false } else s
  { s1 with pending := none }

/-- The embedding of the body of update_frame at lines 637-645 running
at time now: when dirty, any pending debounced action is cancelled and
a new one is scheduled 150 units ahead (after_cancel plus after,
collapsed into one overwrite of the pending slot). -/
def updateFrameTick (now : Nat) (s : CoState) : CoState :=
  if s.dirty then { s with pending := some (now + 150) } else s

/-- One time unit of the cooperative event loop.  The function fires
says at which instants the user changes a parameter, which runs
mark_hsv_changed (lines 656-660) and sets the dirty flag.  Then a
pending debounced action due now runs, and then the periodic tick runs
if now is a multiple of the 50-unit interval (update_frame is called
once at startup, so ticks fall on 0, 50, 100, ...). -/
def coStep (fires : Nat → Bool) (now : Nat) (s : CoState) : CoState :=
  let s1 := if fires now then { s with dirty := true } else s
  let s2 := if s1.pending = some now then debouncedUpdate s1 else s1
  if now % 50 = 0 then updateFrameTick now s2 else s2

/-- The event loop run from startup (clean flag, no timer, zero passes)
through time n inclusive. -/
def coRun (fires : Nat → Bool) : Nat → CoState
  | 0 => coStep fires 0 { dirty := false, pending := none, passes := 0 }
  | n + 1 => coStep fires (n + 1) (coRun fires n)

/-- A burst of three parameter changes at times 10, 60 and 110: each
consecutive pair is 50 units apart, well inside the 150-unit quiet
period. -/
def demoChanges : Nat → Bool :=
  fun t => decide (t = 10 ∨ t = 60 ∨ t = 110)

/-- A populated-cache state: the result of processing the one-pixel
black image from a fresh post-load state with the full default
bounds. -/
def stHitDemo : AppState :=
  (processImageSafely { initialState with loadedImage := some [(0, 0, 0)] }
    [(0, 0, 0)] (0, 0, 0) (179, 255, 255)).2

/-! ## Theorems -/

/-- Helper: applying a mask whose entries are all zero zeroes every
pixel of the filtered image. -/
lemma bitwiseAndMask_all_zero (image : Img) :
    ∀ (mask : List Nat), (∀ m ∈ mask, m = 0) →
      (bitwiseAndMask image mask).all
        (fun q => decide (q = ((0, 0, 0) : Pixel))) = true := by
  induction image with
  | nil => intro mask _; simp [bitwiseAndMask]
  | cons p ps ih =>
    intro mask h
    cases mask with
    | nil => simp [bitwiseAndMask]
    | cons m ms =>
      have hm : m = 0 := h m (by simp)
      have hms : ∀ x ∈ ms, x = 0 := fun x hx => h x (List.mem_cons_of_mem _ hx)
      have := ih ms hms
      simp [bitwiseAndMask, hm] at this ⊢
      exact this

/-- C5: whenever the lower bound strictly exceeds the upper bound on
some channel, the in-range mask is all-zero on any HSV image, and the
masked filter therefore zeroes every pixel of any source image. -/
theorem reversed_bounds_empty_mask (hsv image : Img) (lo hi : Bound)
    (h : hi.1 < lo.1 ∨ hi.2.1 < lo.2.1 ∨ hi.2.2 < lo.2.2) :
    (inRangeImg hsv lo hi).all (fun m => m == 0) = true ∧
    (bitwiseAndMask image (inRangeImg hsv lo hi)).all
      (fun q => decide (q = ((0, 0, 0) : Pixel))) = true := by
  have hmask : ∀ m ∈ inRangeImg hsv lo hi, m = 0 := by
    intro m hm
    simp only [inRangeImg, List.mem_map] at hm
    obtain ⟨q, _, rfl⟩ := hm
    unfold inRangePixel
    split
    · next hc => exfalso; omega
    · rfl
  constructor
  · exact List.all_eq_true.mpr (fun m hm => by simp [hmask m hm])
  · exact bitwiseAndMask_all_zero image _ hmask

/-- C5 witness: with lower hue 10 above upper hue 5, the mask over the
one-pixel white image is all-zero and the filtered image is the zero
pixel. -/
theorem reversed_bounds_empty_mask_witness :
    (inRangeImg (cvtBGR2HSV [(255, 255, 255)]) (10, 0, 0) (5, 255, 255)).all
      (fun m => m == 0) = true ∧
    (bitwiseAndMask [(255, 255, 255)]
      (inRangeImg (cvtBGR2HSV [(255, 255, 255)]) (10, 0, 0) (5, 255, 255))).all
      (fun q => decide (q = ((0, 0, 0) : Pixel))) = true :=
  reversed_bounds_empty_mask (cvtBGR2HSV [(255, 255, 255)]) [(255, 255, 255)]
    (10, 0, 0) (5, 255, 255) (Or.inl (by decide))

/-- C6: the binary buffer is the gray conversion of the filtered image
mapped point-wise to 255 exactly on positive values and 0 exactly on
zero, so it only contains the two values 0 and 255; and this is
precisely the binary component the Threshold Engine produces. -/
theorem binary_nonzero_preserving (filtered image : Img) (lo hi : Bound) (i : Nat) :
    (threshBinary (grayOf filtered))[i]? =
      ((grayOf filtered)[i]?).map (fun c => if 0 < c then 255 else 0) ∧
    (threshBinary (grayOf filtered)).all (fun b => b == 0 || b == 255) = true ∧
    (thresholdEngine image lo hi).2.2 =
      threshBinary (grayOf (thresholdEngine image lo hi).2.1) := by
  refine ⟨?_, ?_, rfl⟩
  · simp [threshBinary, List.getElem?_map]
  · refine List.all_eq_true.mpr ?_
    intro b hb
    simp only [threshBinary, List.mem_map] at hb
    obtain ⟨c, _, rfl⟩ := hb
    by_cases hc : 0 < c <;> simp [hc]

/-- C4: an entry text that does not parse as an in-domain integer — in
particular any text whose every successful parse lies outside the
domain, which covers non-numeric text vacuously — leaves the parameter
state untouched and returns false, and submitting the same rejected
text again still leaves it untouched. -/
theorem entry_rejection_preserves_state (minVal maxVal : Int) (text : String)
    (st : ParamState)
    (h : ∀ v, pythonInt text = some v → v < minVal ∨ maxVal < v) :
    validateAndUpdate minVal maxVal text st = (st, false) ∧
    validateAndUpdate minVal maxVal text
      ((validateAndUpdate minVal maxVal text st).1) = (st, false) := by
  have h1 : validateAndUpdate minVal maxVal text st = (st, false) := by
    unfold validateAndUpdate
    cases hpv : pythonInt text with
    | none => rfl
    | some v =>
      have := h v hpv
      have hcond : ¬(minVal ≤ v ∧ v ≤ maxVal) := by omega
      simp [hcond]
  refine ⟨h1, ?_⟩
  rw [h1]
  exact h1

/-- C4 witness: the non-numeric text oops and the out-of-domain text
999 are both rejected without touching the state, also when
resubmitted. -/
theorem entry_rejection_preserves_state_witness :
    (validateAndUpdate 0 255 "oops" { value := 3, label := "3", hsvChanged := false } =
      ({ value := 3, label := "3", hsvChanged := false }, false) ∧
     validateAndUpdate 0 255 "oops"
       ((validateAndUpdate 0 255 "oops"
          { value := 3, label := "3", hsvChanged := false }).1) =
      ({ value := 3, label := "3", hsvChanged := false }, false)) ∧
    validateAndUpdate 0 255 "999" { value := 3, label := "3", hsvChanged := false } =
      ({ value := 3, label := "3", hsvChanged := false }, false) := by
  constructor
  · refine entry_rejection_preserves_state 0 255 "oops" _ ?_
    intro v hv
    have : pythonInt "oops" = none := by decide
    rw [this] at hv
    cases hv
  · refine (entry_rejection_preserves_state 0 255 "999" _ ?_).1
    intro v hv
    have : pythonInt "999" = some 999 := by decide
    rw [this] at hv
    cases hv
    right
    decide

/-- C3 counterexample: with domain 0..179 and stored value 5, the entry
text 200 parses as an integer above the maximum, yet the stored value
stays 5 — it is not clamped to 179 as the claim states. -/
theorem entry_above_max_not_clamped :
    validateAndUpdate 0 179 "200" { value := 5, label := "5", hsvChanged := false } =
      ({ value := 5, label := "5", hsvChanged := false }, false) ∧
    (validateAndUpdate 0 179 "200"
      { value := 5, label := "5", hsvChanged := false }).1.value ≠ 179 := by
  decide

/-- C3 amended: an entry text parsing as an integer inside the domain
is stored exactly as given (value, label and dirty flag updated); an
integer outside the domain is not clamped but rejected with the prior
state retained. -/
theorem entry_set_exact_or_rejected (minVal maxVal : Int) (text : String)
    (st : ParamState) :
    (∀ v, pythonInt text = some v → minVal ≤ v → v ≤ maxVal →
      validateAndUpdate minVal maxVal text st =
        ({ value := v, label := toString v, hsvChanged := true }, true)) ∧
    (∀ v, pythonInt text = some v → (v < minVal ∨ maxVal < v) →
      validateAndUpdate minVal maxVal text st = (st, false)) := by
  constructor
  · intro v hv h1 h2
    simp [validateAndUpdate, hv, h1, h2]
  · intro v hv h
    have hcond : ¬(minVal ≤ v ∧ v ≤ maxVal) := by omega
    simp [validateAndUpdate, hv, hcond]

/-- C3 amended witness: in the 0..179 domain the text 42 is stored
exactly and the text 200 is rejected with the prior state retained. -/
theorem entry_set_exact_or_rejected_witness :
    validateAndUpdate 0 179 "42" { value := 5, label := "5", hsvChanged := false } =
      ({ value := 42, label := "42", hsvChanged := true }, true) ∧
    validateAndUpdate 0 179 "200" { value := 7, label := "7", hsvChanged := true } =
      ({ value := 7, label := "7", hsvChanged := true }, false) := by
  constructor
  · have := (entry_set_exact_or_rejected 0 179 "42"
      { value := 5, label := "5", hsvChanged := false }).1 42 (by decide)
      (by decide) (by decide)
    simpa using this
  · exact (entry_set_exact_or_rejected 0 179 "200"
      { value := 7, label := "7", hsvChanged := true }).2 200 (by decide)
      (by right; decide)

/-- C9: the clipboard export joins the three components with commas in
plain unpadded decimal; in particular the bounds (12,34,56) export as
the exact string 12,34,56, and in general the rendering is the decimal
numeral of each component. -/
theorem clipboard_export_format :
    getUpperRange 12 34 56 = "12,34,56" ∧
    getLowerRange 12 34 56 = "12,34,56" ∧
    getUpperRange 0 0 0 = "0,0,0" ∧
    getUpperRange 179 255 255 = "179,255,255" ∧
    ∀ h s v : Nat, getUpperRange h s v =
      Nat.repr h ++ "," ++ Nat.repr s ++ "," ++ Nat.repr v :=
  ⟨rfl, rfl, rfl, rfl, fun _ _ _ => rfl⟩

/-- C10: when some component of the lower or upper bound triple is
negative, the processing pass returns before thresholding and the whole
state — displayed images, cached results, cached bounds — is exactly
what it was. -/
theorem negative_bounds_abort_processing (st : AppState) (img : Img)
    (h1 : st.loadedImage = some img)
    (h2 : hasNeg st.lowerBound = true ∨ hasNeg st.upperBound = true) :
    processAndDisplayImage st = st := by
  unfold processAndDisplayImage
  rw [h1]
  have hv : getValidatedHsvBounds st = none := by
    unfold getValidatedHsvBounds
    rcases h2 with h | h <;> simp [h]
  rw [hv]

/-- C10 witness: a loaded one-pixel image with lower bound (-1,0,0)
leaves the state unchanged through a processing pass. -/
theorem negative_bounds_abort_processing_witness :
    processAndDisplayImage
      { initialState with loadedImage := some [(0, 0, 0)], lowerBound := (-1, 0, 0) } =
      { initialState with loadedImage := some [(0, 0, 0)], lowerBound := (-1, 0, 0) } :=
  negative_bounds_abort_processing _ [(0, 0, 0)] rfl (Or.inl (by decide))

/-- C8: every failed load outcome — cancelled dialog, missing file,
non-file path, declined oversize warning, decode failure, declined
dimension warning — returns with the entire state unchanged, so the
previously loaded image, the cache contents and the dirty flag are
retained. -/
theorem failed_load_preserves_state (st : AppState) (o : LoadOutcome)
    (h : o = .cancelled ∨ o = .fileMissing ∨ o = .notAFile ∨
      o = .oversizeDeclined ∨ o = .decodeFailed ∨ o = .dimensionsDeclined) :
    loadImage st o = st ∧
    (loadImage st o).loadedImage = st.loadedImage ∧
    (loadImage st o).cachedProcessedImages = st.cachedProcessedImages ∧
    (loadImage st o).hsvChanged = st.hsvChanged := by
  rcases h with rfl | rfl | rfl | rfl | rfl | rfl <;> exact ⟨rfl, rfl, rfl, rfl⟩

/-- C8 witness: a missing-file outcome on a state holding the one-pixel
black image keeps that state identical. -/
theorem failed_load_preserves_state_witness :
    loadImage { initialState with loadedImage := some [(0, 0, 0)] } .fileMissing =
      { initialState with loadedImage := some [(0, 0, 0)] } :=
  (failed_load_preserves_state _ .fileMissing (Or.inr (Or.inl rfl))).1

/-- C7: after cache invalidation the lookup misses for every requested
bounds, the next processing call recomputes through the full Threshold
Engine (the call counter increments), and the successful load path is
exactly invalidation followed by a processing pass. -/
theorem load_invalidates_cache_then_recomputes (st : AppState)
    (image img2 : Img) (lo hi : Bound) :
    canUseCachedResults (invalidateCache st) lo hi = false ∧
    (processImageSafely (invalidateCache st) img2 lo hi).1 =
      some (thresholdEngine img2 lo hi) ∧
    (processImageSafely (invalidateCache st) img2 lo hi).2.engineCalls =
      st.engineCalls + 1 ∧
    loadImage st (.success image) =
      processAndDisplayImage
        { invalidateCache { st with loadedImage := some image } with
            hsvChanged := true } := by
  have hc : canUseCachedResults (invalidateCache st) lo hi = false := by
    simp [canUseCachedResults, invalidateCache]
  refine ⟨hc, ?_, ?_, rfl⟩
  · unfold processImageSafely
    rw [hc]
    simp [invalidateCache, thresholdEngine]
  · unfold processImageSafely
    rw [hc]
    simp [invalidateCache]

/-- C2 counterexample: in the populated-cache state built from the
black image, the lookup hits and returns the stored result with the
state (call counter included) untouched although the current image is
the white image, which differs from the stored one and whose genuine
processing yields a different filtered buffer. -/
theorem cache_hit_despite_different_image :
    stHitDemo.cachedProcessedImages = some ([(0, 0, 0)], [(0, 0, 0)], [0]) ∧
    ([(0, 0, 0)] : Img) ≠ [(255, 255, 255)] ∧
    canUseCachedResults stHitDemo (0, 0, 0) (179, 255, 255) = true ∧
    processImageSafely stHitDemo [(255, 255, 255)] (0, 0, 0) (179, 255, 255) =
      (some ([(0, 0, 0)], [(0, 0, 0)], [0]), stHitDemo) ∧
    (thresholdEngine [(255, 255, 255)] (0, 0, 0) (179, 255, 255)).2.1 =
      [(255, 255, 255)] := by
  decide

/-- C2 amended: a cache hit happens exactly when a result is stored and
the stored bounds equal the requested bounds — the current image is not
consulted — and on a hit the stored tuple is returned with the state
unchanged, so nothing is recomputed. -/
theorem cache_hit_iff_bounds_match (st : AppState) (image : Img) (lo hi : Bound) :
    (canUseCachedResults st lo hi = true ↔
      st.cachedProcessedImages.isSome = true ∧
        st.lastProcessedBounds = some (lo, hi)) ∧
    (canUseCachedResults st lo hi = true →
      processImageSafely st image lo hi = (st.cachedProcessedImages, st)) := by
  constructor
  · unfold canUseCachedResults
    rcases hc : st.cachedProcessedImages with _ | r <;>
      rcases hb : st.lastProcessedBounds with _ | ⟨cl, cu⟩ <;>
        simp [Prod.ext_iff]
  · intro h
    simp [processImageSafely, h]

/-- C2 amended witness: in the populated-cache state the hit with the
stored bounds returns the stored tuple and leaves the state as it
was. -/
theorem cache_hit_iff_bounds_match_witness :
    processImageSafely stHitDemo [(255, 255, 255)] (0, 0, 0) (179, 255, 255) =
      (stHitDemo.cachedProcessedImages, stHitDemo) :=
  (cache_hit_iff_bounds_match stHitDemo [(255, 255, 255)] (0, 0, 0)
    (179, 255, 255)).2 (by decide)

/-- The loop invariant of the demo coalescer run: no processing pass
ever completes, the dirty flag is set from the first change at time 10
on, and from the first tick at time 50 on a debounced action is
perpetually pending 150 units after the most recent tick — each next
tick cancels it 50 units later, 100 units before it would fire. -/
def coInv (n : Nat) (s : CoState) : Prop :=
  s.passes = 0 ∧ s.dirty = decide (10 ≤ n) ∧
  s.pending = if n < 50 then none else some (50 * (n / 50) + 150)

/-- Helper: one step of the demo run preserves the invariant. -/
lemma coStep_demo_inv (n : Nat) (d : Bool) (p : Option Nat) (c : Nat)
    (hp : c = 0) (hd : d = decide (10 ≤ n))
    (hpen : p = if n < 50 then none else some (50 * (n / 50) + 150)) :
    coInv (n + 1) (coStep demoChanges (n + 1) ⟨d, p, c⟩) := by
  subst hp hd hpen
  have hnotdue : (if n < 50 then (none : Option Nat)
      else some (50 * (n / 50) + 150)) ≠ some (n + 1) := by
    split
    · simp
    · simp only [ne_eq, Option.some.injEq]
      omega
  unfold coInv coStep debouncedUpdate updateFrameTick
  cases hfb : demoChanges (n + 1) with
  | true =>
    have hf : n + 1 = 10 ∨ n + 1 = 60 ∨ n + 1 = 110 := by
      simpa [demoChanges] using hfb
    by_cases h50 : (n + 1) % 50 = 0
    · simp [hfb, hnotdue, h50]
      rcases hf with h | h | h <;> omega
    · simp [hfb, hnotdue, h50]
      constructor
      · rcases hf with h | h | h <;> omega
      · split_ifs <;>
          first
            | rfl
            | (exfalso; omega)
            | (simp only [Option.some.injEq]; omega)
  | false =>
    have hf : ¬(n + 1 = 10 ∨ n + 1 = 60 ∨ n + 1 = 110) := by
      simpa [demoChanges] using hfb
    have h9 : n + 1 ≠ 10 := fun h => hf (Or.inl h)
    by_cases h50 : (n + 1) % 50 = 0
    · have h10 : 10 ≤ n := by omega
      simp [hfb, hnotdue, h50, h10]
      omega
    · simp [hfb, hnotdue, h50]
      constructor
      · omega
      · split_ifs <;>
          first
            | rfl
            | (exfalso; omega)
            | (simp only [Option.some.injEq]; omega)

/-- Helper: the invariant holds along the whole demo run. -/
lemma coRun_demo_inv : ∀ n, coInv n (coRun demoChanges n) := by
  intro n
  induction n with
  | zero => unfold coInv; decide
  | succ n ih =>
    obtain ⟨hp, hd, hpen⟩ := ih
    have := coStep_demo_inv n (coRun demoChanges n).dirty
      (coRun demoChanges n).pending (coRun demoChanges n).passes hp hd hpen
    simpa [coRun] using this

/-- C1 (code bug): in the run where parameter changes fire at times 10,
60 and 110 — all inside one quiet period of each other — the number of
completed processing passes is zero at every time, not one, and the
dirty flag stays set from time 10 on: every 50-unit tick cancels and
re-arms the 150-unit debounced action before it can fire, postponing
the pass forever. -/
theorem update_frame_starves_debounced_pass :
    ∀ n, (coRun demoChanges n).passes = 0 ∧
      (coRun demoChanges n).dirty = decide (10 ≤ n) :=
  fun n => ⟨(coRun_demo_inv n).1, (coRun_demo_inv n).2.1⟩

end HSVFinder
